import Mathlib

/-
Verification of pyudev.monitor (Monitor and MonitorObserver) against its
natural-language specification.  The Python source is shallowly embedded:
pure control flow becomes Lean functions, the outcomes of external libudev
and OS calls (select readiness, udev_monitor_new_from_netlink success,
udev_monitor_receive_device results) are passed as explicit oracle values
or modelled by the netlink socket buffer, and side effects (bytes written
to the stop pipe, closes, enable_receiving calls, callback invocations)
are recorded in counters and logs inside the state records.
-/

/-- A structured device event; opaque to the monitor core beyond identity. -/
structure Device where
  id : Nat
deriving DecidableEq, Repr

/-- State of a `Monitor` (pyudev.monitor.Monitor): the `_started` flag, the
number of `udev_monitor_enable_receiving` calls issued so far, the events
currently buffered on the netlink socket, and the ghost history of every
event the kernel has ever delivered to that socket (in delivery order). -/
structure Monitor where
  started : Bool
  enableCalls : Nat
  buffer : List Device
  delivered : List Device
deriving DecidableEq, Repr

/-- Errors raised during construction: `ValueError` for malformed caller
input, `EnvironmentError` when the daemon connection cannot be made. -/
inductive CreateErr where
  | valueError
  | environmentError
deriving DecidableEq, Repr

/-- A freshly constructed monitor (`Monitor.__init__`): `_started = False`,
no libudev activation yet, nothing buffered, nothing delivered. -/
def freshMonitor : Monitor :=
  { started := false, enableCalls := 0, buffer := [], delivered := [] }

/-- Outcome of `Monitor.from_netlink` together with the number of attempts
to connect to the daemon (calls to `udev_monitor_new_from_netlink`). -/
structure CreateOutcome where
  result : Except CreateErr Monitor
  connectAttempts : Nat
deriving Repr

/-- `Monitor.from_netlink`: a source other than `"kernel"` or `"udev"` is
rejected with `ValueError` before any connection attempt; otherwise
`udev_monitor_new_from_netlink` is called (its success is the oracle
`daemonOk`) and a null result raises `EnvironmentError`. -/
def Monitor.from_netlink (source : String) (daemonOk : Bool) : CreateOutcome :=
  if source ≠ "kernel" ∧ source ≠ "udev" then
    { result := Except.error CreateErr.valueError, connectAttempts := 0 }
  else if daemonOk then
    { result := Except.ok freshMonitor, connectAttempts := 1 }
  else
    { result := Except.error CreateErr.environmentError, connectAttempts := 1 }

/-- `Monitor.start`: call `udev_monitor_enable_receiving` and set
`_started` only when not already started. -/
def Monitor.start (m : Monitor) : Monitor :=
  if m.started then m
  else { m with enableCalls := m.enableCalls + 1, started := true }

/-- `udev_monitor_receive_device`: non-blocking receive of the next
buffered event; a null result (nothing could be received) is `none`. -/
def Monitor.receiveDevice (m : Monitor) : Option Device × Monitor :=
  match m.buffer with
  | [] => (none, m)
  | d :: rest => (some d, { m with buffer := rest })

/-- Result of `Monitor.poll`: a timeout (`None`), a received `Device`, or
the `EnvironmentError` raised when the receive fails despite readiness. -/
inductive PollResult where
  | timedOut
  | device (d : Device)
  | receiveError
deriving DecidableEq, Repr

/-- Everything observable about one `Monitor.poll` call: its result, the
monitor state afterwards, and how many receives it performed. -/
structure PollOutcome where
  result : PollResult
  monitor : Monitor
  receiveCalls : Nat
deriving DecidableEq, Repr

/-- `Monitor.poll`: `select.select` on the monitor fd up to `timeout` (the
readiness verdict of select is the oracle `ready`); when ready, perform
exactly one `udev_monitor_receive_device`, raising `EnvironmentError` on a
null result; when not ready, return `None` without receiving. -/
def Monitor.poll (m : Monitor) (timeout : Option Nat) (ready : Bool) : PollOutcome :=
  if ready then
    match m.receiveDevice with
    | (none, m') => { result := PollResult.receiveError, monitor := m', receiveCalls := 1 }
    | (some d, m') => { result := PollResult.device d, monitor := m', receiveCalls := 1 }
  else
    { result := PollResult.timedOut, monitor := m, receiveCalls := 0 }

/-- The kernel delivers one event to the channel: appended to the socket
buffer and to the ghost delivery history. -/
def Monitor.inject (m : Monitor) (d : Device) : Monitor :=
  { m with buffer := m.buffer ++ [d], delivered := m.delivered ++ [d] }

/-- Liveness of the observer thread. -/
inductive TStatus where
  | notStarted
  | running
  | exited
  | failed
deriving DecidableEq, Repr

/-- State of a `MonitorObserver`.  `sinkOpen` is `_stop_event_sink is not
None` (write end of the stop pipe usable); `sourceOpen` is whether the
read end `_stop_event_source` has not been closed; `pipeBytes` counts
bytes written to the pipe and not yet consumed; `bytesWritten`,
`sinkCloses` and `pipesCreated` are effect counters; `log` records the
devices passed to the callback, in invocation order. -/
structure MonitorObserver where
  monitor : Monitor
  sinkOpen : Bool
  sourceOpen : Bool
  pipeBytes : Nat
  bytesWritten : Nat
  sinkCloses : Nat
  pipesCreated : Nat
  log : List Device
  status : TStatus
deriving DecidableEq, Repr

/-- `MonitorObserver.__init__`: `ValueError` when the callback is `None`;
otherwise the stop pipe is created eagerly by `os.pipe()`, both ends
open, before the thread is started. -/
def MonitorObserver.init (monitor : Monitor) (hasCallback : Bool) :
    Except CreateErr MonitorObserver :=
  if hasCallback then
    Except.ok
      { monitor := monitor, sinkOpen := true, sourceOpen := true, pipeBytes := 0,
        bytesWritten := 0, sinkCloses := 0, pipesCreated := 1, log := [],
        status := TStatus.notStarted }
  else Except.error CreateErr.valueError

/-- `MonitorObserver.send_stop`: return immediately when the sink was
already consumed (`_stop_event_sink is None`); otherwise write exactly one
byte to the write end and, in the `finally` block, close it and mark it
consumed. -/
def MonitorObserver.send_stop (o : MonitorObserver) : MonitorObserver :=
  if o.sinkOpen then
    { o with pipeBytes := o.pipeBytes + 1, bytesWritten := o.bytesWritten + 1,
             sinkCloses := o.sinkCloses + 1, sinkOpen := false }
  else o

/-- The two file descriptors registered with the observer's epoll
instance: the stop pipe's read end and the monitor fd. -/
inductive Fd where
  | stopSource
  | monitorFd
deriving DecidableEq, Repr

/-- Level-triggered readiness of the stop pipe's read end: registered and
either a byte is pending or the write end has been closed (EOF). -/
def MonitorObserver.stopReady (o : MonitorObserver) : Bool :=
  o.sourceOpen && (decide (0 < o.pipeBytes) || !o.sinkOpen)

/-- One pass of the `for fd, _ in notifier.poll()` body over the fds
reported by a single epoll wake, in the reported order: on the stop fd,
close the read end and return from the thread; on the monitor fd, call
`monitor.poll(timeout=0)` — whose internal select tells the truth: ready
exactly when an event is buffered — and invoke the callback when a device
was returned; an `EnvironmentError` raised by that poll propagates and
terminates the thread abnormally. -/
def MonitorObserver.processFds (o : MonitorObserver) : List Fd → MonitorObserver
  | [] => o
  | Fd.stopSource :: _ =>
      { o with sourceOpen := false, status := TStatus.exited }
  | Fd.monitorFd :: rest =>
      match o.monitor.poll (some 0) (!o.monitor.buffer.isEmpty) with
      | ⟨PollResult.device d, m', _⟩ =>
          MonitorObserver.processFds { o with monitor := m', log := o.log ++ [d] } rest
      | ⟨PollResult.timedOut, m', _⟩ =>
          MonitorObserver.processFds { o with monitor := m' } rest
      | ⟨PollResult.receiveError, m', _⟩ =>
          { o with monitor := m', status := TStatus.failed }

/-- The `while True` loop of `MonitorObserver.run` over a schedule of
epoll wakes; it stops as soon as processing a wake returned from the
thread (status no longer running).  An exhausted schedule leaves the
thread still running (blocked inside epoll). -/
def MonitorObserver.runLoop (o : MonitorObserver) : List (List Fd) → MonitorObserver
  | [] => o
  | fds :: rest =>
      let o' := o.processFds fds
      if o'.status = TStatus.running then MonitorObserver.runLoop o' rest else o'

/-- `MonitorObserver.run`: the thread body — start the monitor, then the
epoll loop; the thread status becomes running when the body begins. -/
def MonitorObserver.run (o : MonitorObserver) (sched : List (List Fd)) : MonitorObserver :=
  MonitorObserver.runLoop
    { o with monitor := o.monitor.start, status := TStatus.running } sched

/-- One step of the whole system: the observer thread handles one epoll
wake (only while it is running), the kernel delivers an event to the
channel, or some context calls `send_stop`. -/
inductive SysStep where
  | wake (fds : List Fd)
  | inject (d : Device)
  | sendStop
deriving DecidableEq, Repr

/-- Apply one system step. -/
def MonitorObserver.step (o : MonitorObserver) : SysStep → MonitorObserver
  | SysStep.wake fds =>
      if o.status = TStatus.running then o.processFds fds else o
  | SysStep.inject d => { o with monitor := o.monitor.inject d }
  | SysStep.sendStop => o.send_stop

/-- Apply a sequence of system steps in order. -/
def MonitorObserver.steps (o : MonitorObserver) : List SysStep → MonitorObserver
  | [] => o
  | s :: rest => MonitorObserver.steps (o.step s) rest

/-- The only exception `threading.Thread.join` raises. -/
inductive PyExn where
  | runtimeError
deriving DecidableEq, Repr

/-- `threading.Thread.join`: raises `RuntimeError` immediately (without
waiting) when called from the thread itself or on a never-started thread;
otherwise it blocks and returns only once the thread has exited —
`Except.ok ()` stands for that blocking return after exit. -/
def MonitorObserver.joinRaw (o : MonitorObserver) (fromObserverThread : Bool) :
    Except PyExn Unit :=
  if fromObserverThread then Except.error PyExn.runtimeError
  else if o.status = TStatus.notStarted then Except.error PyExn.runtimeError
  else Except.ok ()

/-- `MonitorObserver.stop`: `send_stop()`, then `self.join()` wrapped in
`try: ... except RuntimeError: pass`.  Returns the state after `send_stop`
and the exception outcome of the join phase after the handler ran. -/
def MonitorObserver.stop (o : MonitorObserver) (fromObserverThread : Bool) :
    MonitorObserver × Except PyExn Unit :=
  let o' := o.send_stop
  match o'.joinRaw fromObserverThread with
  | Except.error PyExn.runtimeError => (o', Except.ok ())
  | r => (o', r)

/-- `n` successive sequential calls of `send_stop`. -/
def sendStopN (n : Nat) (o : MonitorObserver) : MonitorObserver :=
  match n with
  | 0 => o
  | Nat.succ k => (sendStopN k o).send_stop

/-- `n` successive calls of `Monitor.start`. -/
def startN (n : Nat) (m : Monitor) : Monitor :=
  match n with
  | 0 => m
  | Nat.succ k => (startN k m).start

/-- The operations of the Monitor interface, plus kernel event delivery.
Filter installation and buffer-size tuning act only on libudev-side state,
none of the fields modelled here. -/
inductive MonOp where
  | startOp
  | pollOp (timeout : Option Nat) (ready : Bool)
  | filterByOp
  | filterByTagOp
  | removeFilterOp
  | setReceiveBufferSizeOp (size : Nat)
  | injectOp (d : Device)
deriving DecidableEq, Repr

/-- Apply one Monitor operation. -/
def applyMonOp (m : Monitor) : MonOp → Monitor
  | MonOp.startOp => m.start
  | MonOp.pollOp t r => (m.poll t r).monitor
  | MonOp.filterByOp => m
  | MonOp.filterByTagOp => m
  | MonOp.removeFilterOp => m
  | MonOp.setReceiveBufferSizeOp _ => m
  | MonOp.injectOp d => m.inject d

/-- Apply a sequence of Monitor operations in order. -/
def applyMonOps (m : Monitor) : List MonOp → Monitor
  | [] => m
  | op :: rest => applyMonOps (applyMonOp m op) rest

/-- Example device used in concrete evaluations. -/
def dev0 : Device := { id := 0 }

/-! ## Helper lemmas -/

/-- Unfolding `processFds` when the monitor fd is reported but the socket
buffer is empty: the `poll(timeout=0)` returns `None` (spurious wake). -/
theorem processFds_monitor_nil (o : MonitorObserver) (rest : List Fd)
    (hb : o.monitor.buffer = []) :
    o.processFds (Fd.monitorFd :: rest) = o.processFds rest := by
  simp [MonitorObserver.processFds, Monitor.poll, Monitor.receiveDevice, hb]

/-- Unfolding `processFds` when the monitor fd is reported and an event is
buffered: the event is drained and the callback invoked. -/
theorem processFds_monitor_cons (o : MonitorObserver) (rest : List Fd) (d : Device)
    (bs : List Device) (hb : o.monitor.buffer = d :: bs) :
    o.processFds (Fd.monitorFd :: rest)
      = MonitorObserver.processFds
          { o with monitor := { o.monitor with buffer := bs }, log := o.log ++ [d] } rest := by
  simp [MonitorObserver.processFds, Monitor.poll, Monitor.receiveDevice, hb]

/-- Unfolding `processFds` at the stop fd: close the read end, return. -/
theorem processFds_stop_cons (o : MonitorObserver) (rest : List Fd) :
    o.processFds (Fd.stopSource :: rest)
      = { o with sourceOpen := false, status := TStatus.exited } := rfl

/-- If a wake's report contains the stop fd, processing it leaves the
thread exited. -/
theorem processFds_mem_stop (fds : List Fd) : ∀ o : MonitorObserver,
    Fd.stopSource ∈ fds → (o.processFds fds).status = TStatus.exited := by
  induction fds with
  | nil => intro o h; cases h
  | cons fd rest ih =>
      intro o h
      cases fd with
      | stopSource => rw [processFds_stop_cons]
      | monitorFd =>
          have hrest : Fd.stopSource ∈ rest := by
            rcases List.mem_cons.mp h with h1 | h2
            · cases h1
            · exact h2
          cases hb : o.monitor.buffer with
          | nil => rw [processFds_monitor_nil _ _ hb]; exact ih _ hrest
          | cons d bs => rw [processFds_monitor_cons _ _ _ _ hb]; exact ih _ hrest

/-- Within one wake, fds listed before the first stop fd are processed as
usual, and reaching the stop fd closes the read end and returns; anything
after it in the report is ignored. -/
theorem processFds_append_stop (pre : List Fd) : ∀ (o : MonitorObserver) (post : List Fd),
    Fd.stopSource ∉ pre →
    o.processFds (pre ++ Fd.stopSource :: post)
      = { o.processFds pre with sourceOpen := false, status := TStatus.exited } := by
  induction pre with
  | nil => intro o post _; rfl
  | cons fd pres ih =>
      intro o post h
      have hfd : fd = Fd.monitorFd := by
        cases fd
        · exact absurd (List.mem_cons_self _ _) h
        · rfl
      subst hfd
      have hpres : Fd.stopSource ∉ pres := fun hm => h (List.mem_cons_of_mem _ hm)
      cases hb : o.monitor.buffer with
      | nil =>
          rw [List.cons_append, processFds_monitor_nil _ _ hb,
            processFds_monitor_nil _ _ hb, ih _ _ hpres]
      | cons d bs =>
          rw [List.cons_append, processFds_monitor_cons _ _ _ _ hb,
            processFds_monitor_cons _ _ _ _ hb, ih _ _ hpres]

/-- `processFds` never touches the pipe counters or the write end. -/
theorem processFds_counters (fds : List Fd) : ∀ o : MonitorObserver,
    (o.processFds fds).sinkOpen = o.sinkOpen
    ∧ (o.processFds fds).bytesWritten = o.bytesWritten
    ∧ (o.processFds fds).sinkCloses = o.sinkCloses
    ∧ (o.processFds fds).pipesCreated = o.pipesCreated := by
  induction fds with
  | nil => intro o; exact ⟨rfl, rfl, rfl, rfl⟩
  | cons fd rest ih =>
      intro o
      cases fd with
      | stopSource => rw [processFds_stop_cons]; exact ⟨rfl, rfl, rfl, rfl⟩
      | monitorFd =>
          cases hb : o.monitor.buffer with
          | nil => rw [processFds_monitor_nil _ _ hb]; exact ih o
          | cons d bs => rw [processFds_monitor_cons _ _ _ _ hb]; exact ih _

/-- A single system step never creates a new pipe. -/
theorem step_pipesCreated (o : MonitorObserver) (s : SysStep) :
    (o.step s).pipesCreated = o.pipesCreated := by
  cases s with
  | wake fds =>
      by_cases hr : o.status = TStatus.running
      · simp only [MonitorObserver.step, hr, if_pos]
        exact (processFds_counters fds o).2.2.2
      · simp [MonitorObserver.step, hr]
  | inject d => rfl
  | sendStop =>
      cases hs : o.sinkOpen <;> simp [MonitorObserver.step, MonitorObserver.send_stop, hs]

/-- No sequence of system steps ever creates a new pipe. -/
theorem steps_pipesCreated (tr : List SysStep) : ∀ o : MonitorObserver,
    (o.steps tr).pipesCreated = o.pipesCreated := by
  induction tr with
  | nil => intro o; rfl
  | cons s rest ih =>
      intro o
      show ((o.step s).steps rest).pipesCreated = o.pipesCreated
      rw [ih, step_pipesCreated]

/-- Once the write end is consumed, no step reopens it or writes or closes
it again. -/
theorem step_sink_consumed (o : MonitorObserver) (s : SysStep) (h : o.sinkOpen = false) :
    (o.step s).sinkOpen = false
    ∧ (o.step s).bytesWritten = o.bytesWritten
    ∧ (o.step s).sinkCloses = o.sinkCloses := by
  cases s with
  | wake fds =>
      by_cases hr : o.status = TStatus.running
      · simp only [MonitorObserver.step, hr, if_pos]
        obtain ⟨h1, h2, h3, _⟩ := processFds_counters fds o
        exact ⟨h ▸ h1, h2, h3⟩
      · simp [MonitorObserver.step, hr, h]
  | inject d => exact ⟨h, rfl, rfl⟩
  | sendStop => simp [MonitorObserver.step, MonitorObserver.send_stop, h]

/-- Once the write end is consumed, no sequence of steps writes to it,
closes it, or reopens it. -/
theorem steps_sink_consumed (tr : List SysStep) : ∀ o : MonitorObserver,
    o.sinkOpen = false →
    (o.steps tr).sinkOpen = false
    ∧ (o.steps tr).bytesWritten = o.bytesWritten
    ∧ (o.steps tr).sinkCloses = o.sinkCloses := by
  induction tr with
  | nil => intro o h; exact ⟨h, rfl, rfl⟩
  | cons s rest ih =>
      intro o h
      obtain ⟨h1, h2, h3⟩ := step_sink_consumed o s h
      obtain ⟨g1, g2, g3⟩ := ih (o.step s) h1
      exact ⟨g1, g2.trans h2, g3.trans h3⟩

/-- After the observer thread has exited, a system step neither invokes
the callback nor revives the thread. -/
theorem step_exited_frozen (o : MonitorObserver) (s : SysStep)
    (h : o.status = TStatus.exited) :
    (o.step s).log = o.log ∧ (o.step s).status = TStatus.exited := by
  cases s with
  | wake fds => simp [MonitorObserver.step, h]
  | inject d => exact ⟨rfl, h⟩
  | sendStop =>
      cases hs : o.sinkOpen <;>
        simp [MonitorObserver.step, MonitorObserver.send_stop, hs, h]

/-- After the observer thread has exited, no sequence of system steps —
wakes, injected events, further send_stops — ever invokes the callback
again or changes the thread status. -/
theorem steps_exited_frozen (tr : List SysStep) : ∀ o : MonitorObserver,
    o.status = TStatus.exited →
    (o.steps tr).log = o.log ∧ (o.steps tr).status = TStatus.exited := by
  induction tr with
  | nil => intro o h; exact ⟨rfl, h⟩
  | cons s rest ih =>
      intro o h
      obtain ⟨h1, h2⟩ := step_exited_frozen o s h
      obtain ⟨g1, g2⟩ := ih (o.step s) h2
      exact ⟨g1.trans h1, g2⟩

/-- The channel-order invariant: the callback log followed by what is
still buffered is exactly the kernel delivery history. -/
def chanInv (o : MonitorObserver) : Prop :=
  o.log ++ o.monitor.buffer = o.monitor.delivered

/-- Draining events inside one wake preserves the channel-order
invariant. -/
theorem processFds_chanInv (fds : List Fd) : ∀ o : MonitorObserver,
    chanInv o → chanInv (o.processFds fds) := by
  induction fds with
  | nil => intro o h; exact h
  | cons fd rest ih =>
      intro o h
      cases fd with
      | stopSource => rw [processFds_stop_cons]; exact h
      | monitorFd =>
          cases hb : o.monitor.buffer with
          | nil => rw [processFds_monitor_nil _ _ hb]; exact ih o h
          | cons d bs =>
              rw [processFds_monitor_cons _ _ _ _ hb]
              apply ih
              show (o.log ++ [d]) ++ bs = o.monitor.delivered
              rw [chanInv, hb] at h
              rw [List.append_assoc, List.singleton_append]
              exact h

/-- Every system step preserves the channel-order invariant. -/
theorem step_chanInv (o : MonitorObserver) (s : SysStep) (h : chanInv o) :
    chanInv (o.step s) := by
  cases s with
  | wake fds =>
      by_cases hr : o.status = TStatus.running
      · simp only [MonitorObserver.step, hr, if_pos]
        exact processFds_chanInv fds o h
      · simp only [MonitorObserver.step, hr, if_neg, ite_false]
        exact h
  | inject d =>
      show o.log ++ (o.monitor.buffer ++ [d]) = o.monitor.delivered ++ [d]
      rw [← List.append_assoc, h]
  | sendStop =>
      show chanInv o.send_stop
      cases hs : o.sinkOpen <;>
        simp only [MonitorObserver.send_stop, hs, if_pos, if_neg, Bool.false_eq_true,
          ite_false, ite_true] <;>
        exact h

/-- Any sequence of system steps preserves the channel-order invariant. -/
theorem steps_chanInv (tr : List SysStep) : ∀ o : MonitorObserver,
    chanInv o → chanInv (o.steps tr) := by
  induction tr with
  | nil => intro o h; exact h
  | cons s rest ih => intro o h; exact ih (o.step s) (step_chanInv o s h)

/-- `send_stop` is idempotent: the second call is a no-op. -/
theorem send_stop_idem (o : MonitorObserver) : o.send_stop.send_stop = o.send_stop := by
  cases hs : o.sinkOpen <;> simp [MonitorObserver.send_stop, hs]

/-- One or more sequential `send_stop` calls collapse to the first. -/
theorem sendStopN_succ (n : Nat) (o : MonitorObserver) :
    sendStopN (n + 1) o = o.send_stop := by
  induction n with
  | zero => rfl
  | succ k ih => show (sendStopN (k + 1) o).send_stop = o.send_stop; rw [ih, send_stop_idem]

/-- `Monitor.start` is idempotent. -/
theorem start_idem (m : Monitor) : m.start.start = m.start := by
  cases hs : m.started <;> simp [Monitor.start, hs]

/-- One or more `start` calls collapse to the first. -/
theorem startN_succ (n : Nat) (m : Monitor) : startN (n + 1) m = m.start := by
  induction n with
  | zero => rfl
  | succ k ih => show (startN (k + 1) m).start = m.start; rw [ih, start_idem]

/-- No Monitor operation changes `started` or `enableCalls` except
`start` itself, and no operation ever resets `started`. -/
theorem applyMonOp_started (m : Monitor) (op : MonOp) (h : m.started = true) :
    (applyMonOp m op).started = true := by
  cases op with
  | startOp => simp [applyMonOp, Monitor.start, h]
  | pollOp t r =>
      cases r with
      | false => exact h
      | true =>
          cases hb : m.buffer <;>
            simp [applyMonOp, Monitor.poll, Monitor.receiveDevice, hb] <;> exact h
  | filterByOp => exact h
  | filterByTagOp => exact h
  | removeFilterOp => exact h
  | setReceiveBufferSizeOp size => exact h
  | injectOp d => exact h

/-- `started` never reverts under any sequence of Monitor operations. -/
theorem applyMonOps_started (ops : List MonOp) : ∀ m : Monitor,
    m.started = true → (applyMonOps m ops).started = true := by
  induction ops with
  | nil => intro m h; exact h
  | cons op rest ih => intro m h; exact ih _ (applyMonOp_started m op h)

/-- The activation invariant: delivery has been activated
(`udev_monitor_enable_receiving` called) exactly once if and only if
`started` holds. -/
def monQ (m : Monitor) : Prop :=
  m.enableCalls = if m.started then 1 else 0

/-- Every Monitor operation preserves the activation invariant. -/
theorem applyMonOp_monQ (m : Monitor) (op : MonOp) (h : monQ m) : monQ (applyMonOp m op) := by
  cases op with
  | startOp =>
      cases hs : m.started with
      | true => simpa [applyMonOp, Monitor.start, hs] using h
      | false =>
          show (Monitor.start m).enableCalls = if (Monitor.start m).started then 1 else 0
          rw [monQ, hs] at h
          simp [Monitor.start, hs, h]
  | pollOp t r =>
      cases r with
      | false => exact h
      | true =>
          cases hb : m.buffer with
          | nil => simpa [applyMonOp, Monitor.poll, Monitor.receiveDevice, hb] using h
          | cons d bs => simpa [applyMonOp, Monitor.poll, Monitor.receiveDevice, hb] using h
  | filterByOp => exact h
  | filterByTagOp => exact h
  | removeFilterOp => exact h
  | setReceiveBufferSizeOp size => exact h
  | injectOp d => exact h

/-- Any sequence of Monitor operations preserves the activation
invariant. -/
theorem applyMonOps_monQ (ops : List MonOp) : ∀ m : Monitor,
    monQ m → monQ (applyMonOps m ops) := by
  induction ops with
  | nil => intro m h; exact h
  | cons op rest ih => intro m h; exact ih _ (applyMonOp_monQ m op h)

/-! ## Claim theorems -/

/-- C1 (code bug): the claim — and `Monitor.poll`'s own docstring — say
`poll` implicitly calls `start()` first, so that `started` is true after
`poll` returns.  The code never does: evaluated at the failing input (a
fresh monitor with `started = false`, `poll(timeout=0)` with nothing
ready), `poll` returns `None` and leaves `started = false`, and in general
`poll` changes neither `started` nor the number of
`udev_monitor_enable_receiving` calls, for any timeout and readiness. -/
theorem poll_does_not_start :
    ((freshMonitor.poll (some 0) false).result = PollResult.timedOut
      ∧ (freshMonitor.poll (some 0) false).monitor.started = false
      ∧ (freshMonitor.poll (some 0) false).monitor.enableCalls = 0)
    ∧ ∀ (m : Monitor) (timeout : Option Nat) (ready : Bool),
        (m.poll timeout ready).monitor.started = m.started
        ∧ (m.poll timeout ready).monitor.enableCalls = m.enableCalls := by
  constructor
  · exact ⟨rfl, rfl, rfl⟩
  · intro m timeout ready
    cases ready with
    | false => exact ⟨rfl, rfl⟩
    | true =>
        cases hb : m.buffer <;>
          simp [Monitor.poll, Monitor.receiveDevice, hb]

/-- Observer state used as a concrete input: a running observer after one
`send_stop` (stop byte pending, write end closed) with one event buffered
on the channel — both epoll sources are ready simultaneously. -/
def obs2 : MonitorObserver :=
  { monitor := { started := true, enableCalls := 1, buffer := [dev0], delivered := [dev0] },
    sinkOpen := false, sourceOpen := true, pipeBytes := 1, bytesWritten := 1,
    sinkCloses := 1, pipesCreated := 1, log := [], status := TStatus.running }

/-- C2 counterexample: the claim says that whenever a wake reports the
stop fd ready — even with the monitor fd simultaneously ready — the
observer exits before draining any further event, with no callback
invocation in that wake.  The loop iterates the reported fds in order, so
when epoll lists the monitor fd first, the buffered event is drained and
the callback invoked before the stop fd is seen: here both sources are
ready, the wake is `[monitorFd, stopSource]`, and processing it invokes
the callback on `dev0` and only then closes the read end and exits. -/
theorem run_stop_priority_refuted :
    obs2.stopReady = true
    ∧ obs2.monitor.buffer = [dev0]
    ∧ obs2.log = []
    ∧ (obs2.processFds [Fd.monitorFd, Fd.stopSource]).log = [dev0]
    ∧ (obs2.processFds [Fd.monitorFd, Fd.stopSource]).sourceOpen = false
    ∧ (obs2.processFds [Fd.monitorFd, Fd.stopSource]).status = TStatus.exited := by
  decide

/-- C2 amended: whenever a wake's report contains the stop fd, the
observer closes the read end and exits the loop during that wake's
processing — the fds listed after the stop fd and all later wakes are
ignored, so any event still undrained at that point is left unread; but
the fds listed before the stop fd in the same report are still processed
first, so a buffered event may still be drained and delivered to the
callback in that wake before the exit. -/
theorem run_stop_exits_within_wake (o : MonitorObserver) (pre post : List Fd)
    (rest : List (List Fd)) (h : Fd.stopSource ∉ pre) :
    MonitorObserver.runLoop o ((pre ++ Fd.stopSource :: post) :: rest)
      = { o.processFds pre with sourceOpen := false, status := TStatus.exited } := by
  have hw := processFds_append_stop pre o post h
  simp [MonitorObserver.runLoop, hw]

/-- Witness for C2's amended theorem at the counterexample input: in the
wake `[monitorFd, stopSource]` the loop exits immediately after the
pre-stop part of the report was processed, ignoring everything later. -/
theorem run_stop_exits_within_wake_witness :
    MonitorObserver.runLoop obs2 [[Fd.monitorFd, Fd.stopSource]]
      = { obs2.processFds [Fd.monitorFd] with sourceOpen := false, status := TStatus.exited } :=
  run_stop_exits_within_wake obs2 [Fd.monitorFd] [] [] (by decide)

/-- C3: for an observer fresh from construction (the cancellation pipe
created eagerly, exactly one pipe pair), any sequence of one or more
sequential `send_stop()` calls equals a single call, writes exactly one
byte ever, closes the write end exactly once, never raises (later calls
return before touching the pipe), and no sequence of system steps ever
creates another pipe pair or writes/closes the consumed write end
again. -/
theorem send_stop_exactly_once (m0 : Monitor) (o : MonitorObserver) (n : Nat)
    (hinit : MonitorObserver.init m0 true = Except.ok o) (hn : 1 ≤ n) :
    sendStopN n o = o.send_stop
    ∧ (sendStopN n o).bytesWritten = 1
    ∧ (sendStopN n o).sinkCloses = 1
    ∧ (sendStopN n o).pipesCreated = 1
    ∧ (∀ tr : List SysStep, (o.steps tr).pipesCreated = 1)
    ∧ (∀ tr : List SysStep,
        (o.send_stop.steps tr).sinkOpen = false
        ∧ (o.send_stop.steps tr).bytesWritten = 1
        ∧ (o.send_stop.steps tr).sinkCloses = 1) := by
  have ho : o =
      { monitor := m0, sinkOpen := true, sourceOpen := true, pipeBytes := 0,
        bytesWritten := 0, sinkCloses := 0, pipesCreated := 1, log := [],
        status := TStatus.notStarted } := by
    simpa [MonitorObserver.init] using hinit.symm
  obtain ⟨k, rfl⟩ : ∃ k, n = k + 1 := ⟨n - 1, (Nat.succ_pred_eq_of_pos hn).symm⟩
  rw [sendStopN_succ]
  subst ho
  refine ⟨rfl, rfl, rfl, rfl, ?_, ?_⟩
  · intro tr; rw [steps_pipesCreated]
  · intro tr
    exact steps_sink_consumed tr _ rfl

/-- The observer state right after construction on a fresh monitor. -/
def obsInit : MonitorObserver :=
  { monitor := freshMonitor, sinkOpen := true, sourceOpen := true, pipeBytes := 0,
    bytesWritten := 0, sinkCloses := 0, pipesCreated := 1, log := [],
    status := TStatus.notStarted }

/-- Witness for C3 at a concrete input: three `send_stop` calls on a fresh
observer behave as one, and later steps change none of the counters. -/
theorem send_stop_exactly_once_witness :
    sendStopN 3 obsInit = obsInit.send_stop
    ∧ (sendStopN 3 obsInit).bytesWritten = 1
    ∧ (sendStopN 3 obsInit).sinkCloses = 1
    ∧ (sendStopN 3 obsInit).pipesCreated = 1
    ∧ (MonitorObserver.steps obsInit [SysStep.inject dev0, SysStep.sendStop]).pipesCreated = 1
    ∧ (obsInit.send_stop.steps [SysStep.sendStop]).bytesWritten = 1 := by
  have h := send_stop_exactly_once freshMonitor obsInit 3 rfl (by decide)
  exact ⟨h.1, h.2.1, h.2.2.1, h.2.2.2.1,
    h.2.2.2.2.1 [SysStep.inject dev0, SysStep.sendStop],
    (h.2.2.2.2.2 [SysStep.sendStop]).2.1⟩

/-- C4: a cross-context `stop()` joins the observer thread — the join
returns normally only once the thread has exited (never by the
swallowed RuntimeError, which needs a self-join or an unstarted thread) —
and from any exited state, no further system activity (epoll wakes,
events injected into the channel, more send_stops) ever invokes the
callback again or changes the thread status. -/
theorem stop_foreign_callback_frozen (o : MonitorObserver) (tr : List SysStep)
    (h : o.status = TStatus.exited) :
    (o.steps tr).log = o.log
    ∧ (o.steps tr).status = TStatus.exited
    ∧ o.joinRaw false = Except.ok () := by
  obtain ⟨h1, h2⟩ := steps_exited_frozen tr o h
  refine ⟨h1, h2, ?_⟩
  simp [MonitorObserver.joinRaw, h]

/-- An observer state after a graceful exit: pipe fully consumed, read end
closed, one callback already delivered. -/
def obs4 : MonitorObserver :=
  { monitor := freshMonitor, sinkOpen := false, sourceOpen := false, pipeBytes := 1,
    bytesWritten := 1, sinkCloses := 1, pipesCreated := 1, log := [dev0],
    status := TStatus.exited }

/-- Witness for C4 at a concrete input: after exit, injecting a fresh
event and waking on the monitor fd leaves the callback log untouched. -/
theorem stop_foreign_callback_frozen_witness :
    (obs4.steps [SysStep.inject dev0, SysStep.wake [Fd.monitorFd]]).log = obs4.log
    ∧ (obs4.steps [SysStep.inject dev0, SysStep.wake [Fd.monitorFd]]).status = TStatus.exited
    ∧ obs4.joinRaw false = Except.ok () :=
  stop_foreign_callback_frozen obs4 [SysStep.inject dev0, SysStep.wake [Fd.monitorFd]] rfl

/-- C5: `stop()` from the observer's own thread returns without waiting on
its own context — the join raises RuntimeError immediately and the handler
swallows it, which is observably the skip the spec describes — and after
the `send_stop` it performed, the stop pipe's read end is ready, so the
observer loop exits (status `exited`, read end closed) on any subsequent
wake whose report contains the stop fd. -/
theorem stop_self_returns_then_exits (o : MonitorObserver)
    (hrun : o.status = TStatus.running) (hsrc : o.sourceOpen = true) :
    o.stop true = (o.send_stop, Except.ok ())
    ∧ o.send_stop.joinRaw true = Except.error PyExn.runtimeError
    ∧ o.send_stop.stopReady = true
    ∧ ∀ fds : List Fd, Fd.stopSource ∈ fds →
        (o.send_stop.processFds fds).status = TStatus.exited := by
  refine ⟨?_, ?_, ?_, ?_⟩
  · simp [MonitorObserver.stop, MonitorObserver.joinRaw]
  · simp [MonitorObserver.joinRaw]
  · cases hs : o.sinkOpen <;>
      simp [MonitorObserver.send_stop, MonitorObserver.stopReady, hs, hsrc]
  · intro fds hmem
    exact processFds_mem_stop fds _ hmem

/-- A running observer before any stop request. -/
def obs5 : MonitorObserver :=
  { monitor := freshMonitor, sinkOpen := true, sourceOpen := true, pipeBytes := 0,
    bytesWritten := 0, sinkCloses := 0, pipesCreated := 1, log := [],
    status := TStatus.running }

/-- Witness for C5 at a concrete input. -/
theorem stop_self_returns_then_exits_witness :
    obs5.stop true = (obs5.send_stop, Except.ok ())
    ∧ obs5.send_stop.joinRaw true = Except.error PyExn.runtimeError
    ∧ obs5.send_stop.stopReady = true
    ∧ (obs5.send_stop.processFds [Fd.stopSource]).status = TStatus.exited := by
  have h := stop_self_returns_then_exits obs5 rfl rfl
  exact ⟨h.1, h.2.1, h.2.2.1, h.2.2.2 [Fd.stopSource] (by decide)⟩

/-- C6: for the two valid source names, `from_netlink` either succeeds
with a not-yet-started monitor (when the daemon connection succeeds) or
fails with `EnvironmentError`; for every other name it fails with
`ValueError` and makes no connection attempt at all. -/
theorem from_netlink_contract (source : String) (daemonOk : Bool) :
    ((source = "udev" ∨ source = "kernel") →
        ((Monitor.from_netlink source daemonOk).result = Except.ok freshMonitor
            ∧ freshMonitor.started = false
            ∧ daemonOk = true)
        ∨ ((Monitor.from_netlink source daemonOk).result
              = Except.error CreateErr.environmentError
            ∧ daemonOk = false))
    ∧ ((source ≠ "udev" ∧ source ≠ "kernel") →
        (Monitor.from_netlink source daemonOk).result = Except.error CreateErr.valueError
        ∧ (Monitor.from_netlink source daemonOk).connectAttempts = 0) := by
  constructor
  · rintro (rfl | rfl) <;> cases daemonOk <;>
      simp [Monitor.from_netlink, freshMonitor]
  · rintro ⟨h1, h2⟩
    have hc : source ≠ "kernel" ∧ source ≠ "udev" := ⟨h2, h1⟩
    simp [Monitor.from_netlink, hc]

/-- Witness for C6 at concrete inputs: the invalid name "http" is rejected
with `ValueError` and no connection attempt. -/
theorem from_netlink_contract_witness :
    (Monitor.from_netlink "http" true).result = Except.error CreateErr.valueError
    ∧ (Monitor.from_netlink "http" true).connectAttempts = 0 :=
  (from_netlink_contract "http" true).2 (by decide)

/-- C7: for any timeout (None, zero, or a duration — it only feeds the
select wait): when the fd is not ready within the timeout, `poll` returns
`None` without attempting a receive; when ready, it performs exactly one
receive, raises `EnvironmentError` when that receive fails despite
readiness (null device), and otherwise returns exactly the one received
device, consuming it from the channel. -/
theorem poll_receive_contract (m : Monitor) (timeout : Option Nat) (ready : Bool) :
    (ready = false →
        m.poll timeout ready
          = { result := PollResult.timedOut, monitor := m, receiveCalls := 0 })
    ∧ (ready = true →
        (m.poll timeout ready).receiveCalls = 1
        ∧ (m.buffer = [] → (m.poll timeout ready).result = PollResult.receiveError)
        ∧ ∀ d bs, m.buffer = d :: bs →
            (m.poll timeout ready).result = PollResult.device d
            ∧ (m.poll timeout ready).monitor = { m with buffer := bs }) := by
  constructor
  · intro h; simp [Monitor.poll, h]
  · intro h
    subst h
    refine ⟨?_, ?_, ?_⟩
    · cases hb : m.buffer <;> simp [Monitor.poll, Monitor.receiveDevice, hb]
    · intro hb; simp [Monitor.poll, Monitor.receiveDevice, hb]
    · intro d bs hb; simp [Monitor.poll, Monitor.receiveDevice, hb]

/-- A monitor with one buffered event, used as a concrete input. -/
def monEx : Monitor :=
  { started := true, enableCalls := 1, buffer := [dev0], delivered := [dev0] }

/-- Witness for C7 at concrete inputs: not ready gives `None` with zero
receives; ready with one buffered event gives exactly that device from
exactly one receive. -/
theorem poll_receive_contract_witness :
    monEx.poll none false
      = { result := PollResult.timedOut, monitor := monEx, receiveCalls := 0 }
    ∧ (monEx.poll none true).receiveCalls = 1
    ∧ (monEx.poll none true).result = PollResult.device dev0 := by
  have hf := (poll_receive_contract monEx none false).1 rfl
  have ht := (poll_receive_contract monEx none true).2 rfl
  exact ⟨hf, ht.1, (ht.2.2 dev0 [] rfl).1⟩

/-- C8: `start()` is idempotent — any `n ≥ 1` calls equal one call —
`started` never reverts under any sequence of Monitor operations, and from
a fresh monitor, delivery is activated (`udev_monitor_enable_receiving`
called) exactly once exactly when `started` holds, under any operation
sequence. -/
theorem start_idempotent_once (m : Monitor) (n : Nat) (ops : List MonOp) (hn : 1 ≤ n) :
    startN n m = m.start
    ∧ (m.started = true → (applyMonOps m ops).started = true)
    ∧ (m.started = false → m.enableCalls = 0 →
        (applyMonOps m ops).enableCalls
          = if (applyMonOps m ops).started then 1 else 0) := by
  obtain ⟨k, rfl⟩ : ∃ k, n = k + 1 := ⟨n - 1, (Nat.succ_pred_eq_of_pos hn).symm⟩
  refine ⟨startN_succ k m, applyMonOps_started ops m, ?_⟩
  intro h1 h2
  have hq : monQ m := by rw [monQ, h1, h2]; rfl
  exact applyMonOps_monQ ops m hq

/-- Witness for C8 at concrete inputs. -/
theorem start_idempotent_once_witness :
    startN 2 freshMonitor = freshMonitor.start
    ∧ (applyMonOps freshMonitor
          [MonOp.startOp, MonOp.injectOp dev0, MonOp.pollOp none true]).enableCalls
        = if (applyMonOps freshMonitor
          [MonOp.startOp, MonOp.injectOp dev0, MonOp.pollOp none true]).started
          then 1 else 0 := by
  have h := start_idempotent_once freshMonitor 2
    [MonOp.startOp, MonOp.injectOp dev0, MonOp.pollOp none true] (by decide)
  exact ⟨h.1, h.2.2 rfl rfl⟩

/-- C9: from any state satisfying the channel-order invariant (freshly
started observers do: empty log, log plus buffer equals delivery history),
after any interleaving of epoll wakes, kernel deliveries and stop
requests, the callback log is a prefix of the kernel delivery sequence —
same order, no duplication, and possibly strictly shorter when a stop cut
the draining short. -/
theorem observer_log_prefix_of_delivered (o : MonitorObserver) (tr : List SysStep)
    (h : o.log ++ o.monitor.buffer = o.monitor.delivered) :
    ∃ t, (o.steps tr).log ++ t = (o.steps tr).monitor.delivered :=
  ⟨(o.steps tr).monitor.buffer, steps_chanInv tr o h⟩

/-- A running observer mid-stream: one event already delivered to the
callback, one still buffered. -/
def obs9 : MonitorObserver :=
  { monitor := { started := true, enableCalls := 1, buffer := [{ id := 1 }],
                 delivered := [dev0, { id := 1 }] },
    sinkOpen := true, sourceOpen := true, pipeBytes := 0, bytesWritten := 0,
    sinkCloses := 0, pipesCreated := 1, log := [dev0], status := TStatus.running }

/-- Witness for C9 at a concrete input: a wake that drains the buffered
event, then a fresh delivery, still leaves the log a prefix of the
delivery history. -/
theorem observer_log_prefix_of_delivered_witness :
    ∃ t, (obs9.steps [SysStep.wake [Fd.monitorFd], SysStep.inject { id := 2 }]).log ++ t
      = (obs9.steps [SysStep.wake [Fd.monitorFd], SysStep.inject { id := 2 }]).monitor.delivered :=
  observer_log_prefix_of_delivered obs9
    [SysStep.wake [Fd.monitorFd], SysStep.inject { id := 2 }] rfl

/-- C10: `stop()` never propagates an exception from the join phase: for
every observer state and every calling context (the observer thread
itself, or any other, including on a never-started thread), the
`RuntimeError` a join may raise is swallowed by the handler, `stop`
returns normally, and `send_stop` has still run. -/
theorem stop_swallows_runtime_error (o : MonitorObserver) (fromObserverThread : Bool) :
    (o.stop fromObserverThread).2 = Except.ok ()
    ∧ (o.stop fromObserverThread).1 = o.send_stop := by
  unfold MonitorObserver.stop
  cases hj : o.send_stop.joinRaw fromObserverThread with
  | error e => cases e; simp [hj]
  | ok u => cases u; simp [hj]
